import Mathlib

/-!
Shallow embedding of the `kube-client-ext` ownership-resolution core
(`src/ext2.rs`, `src/helper.rs`).

Remote reads are modelled by an explicit `KubeApi` record of functions
returning `Except Error _` values: each field stands for one remote read the
Rust code performs through the `kube::Client`.  Machine-irrelevant payloads
(the pod spec, the remaining `ObjectMeta` fields) are carried as opaque
`String` components so that structural equality over "all fields" is
preserved.  Label maps (`BTreeMap<String, String>`) are association lists;
`BTreeMap::remove` on a unique-keyed map is modelled by filtering the key out.
-/

namespace KubeClientExt

/-- `metav1::OwnerReference` as used by the resolution core: the spec's data
model describes an owner reference as a tuple of (kind, name, controller-flag). -/
structure OwnerReference where
  kind : String
  name : String
  controller : Option Bool
deriving DecidableEq

/-- `metav1::ObjectMeta` restricted to the fields the core reads, plus an
opaque `rest` component standing for every remaining metadata field (so that
structural equality of metadata compares them too). -/
structure ObjectMeta where
  name : Option String
  ns : Option String
  labels : Option (List (String × String))
  creationTimestamp : Option Int
  ownerReferences : Option (List OwnerReference)
  rest : String
deriving DecidableEq

/-- `corev1::PodTemplateSpec`: optional metadata plus an opaque pod spec
component (the canonicalizer never looks inside the spec). -/
structure PodTemplateSpec where
  metadata : Option ObjectMeta
  spec : Option String
deriving DecidableEq

/-- `appsv1::Deployment` restricted to what the core reads.
Modelled from the spec: the external accessor `deployment.template()`
(from `DeploymentGetExt`) is represented directly as the `template` field;
the spec's data model gives a Deployment a namespace, a name and a pod
template. -/
structure Deployment where
  metadata : ObjectMeta
  template : Option PodTemplateSpec
deriving DecidableEq

/-- `appsv1::ReplicaSet` restricted to what the core reads.
Modelled from the spec: the external accessor `rs.template()`
(from `ReplicaSetGetExt`) is represented directly as the `template` field. -/
structure ReplicaSet where
  metadata : ObjectMeta
  template : Option PodTemplateSpec
deriving DecidableEq

/-- `appsv1::StatefulSet` restricted to what the core reads.
Modelled from the spec: the external accessor `statefulset.current_revision()`
(from `StatefulSetGetExt`) is represented directly as the `currentRevision`
field — "a 'current revision' identifier (a string, possibly absent)". -/
structure StatefulSet where
  metadata : ObjectMeta
  currentRevision : Option String
deriving DecidableEq

/-- `corev1::Pod` restricted to what the core reads (its metadata). -/
structure Pod where
  metadata : ObjectMeta
deriving DecidableEq

/-- `kube::core::Status` as consumed by `not_found_ok`.
Modelled from the spec: the external predicate `Status::is_not_found` is an
abstract attribute of the status, carried as the `isNotFound` field; `rest`
stands for the remaining payload of the status object. -/
structure Status where
  isNotFound : Bool
  rest : String
deriving DecidableEq

/-- `kube::Error` as consumed by the core: an API error carrying a `Status`,
or any other failure (transport, auth, ...), carried opaquely. -/
inductive Error where
  | api (status : Status)
  | other (payload : String)
deriving DecidableEq

/-- `kube::Result<T>` -/
abbrev KubeResult (α : Type) := Except Error α

/-- `k8s::label::DEFAULT_DEPLOYMENT_UNIQUE_LABEL_KEY`, the generated
identity label a Deployment stamps on its pod templates. -/
def DEFAULT_DEPLOYMENT_UNIQUE_LABEL_KEY : String := "pod-template-hash"

/-- `k8s::label::CONTROLLER_REVISION_HASH_LABEL_KEY`, the revision label
(spec Scenario D names it `controller-revision-hash`). -/
def CONTROLLER_REVISION_HASH_LABEL_KEY : String := "controller-revision-hash"

/-- Kind string of `appsv1::Deployment`. -/
def deploymentKind : String := "Deployment"

/-- Kind string of `appsv1::ReplicaSet`. -/
def replicaSetKind : String := "ReplicaSet"

/-- `ResourceExt::owner_references()`: the owner-reference slice, empty when
the metadata carries none. -/
def owner_references (m : ObjectMeta) : List OwnerReference :=
  m.ownerReferences.getD []

/-- Modelled from the spec (§4.1 Ownership Predicate): the candidate's
owner-reference set contains an entry whose kind matches the owner's kind,
whose name matches the owner's name, and whose controller flag is true.
This is the external `is_controlled_by` from `OwnerReferenceExt`. -/
def is_controlled_by (refs : List OwnerReference) (ownerKind : String)
    (ownerName : Option String) : Bool :=
  refs.any fun r =>
    r.kind == ownerKind && some r.name == ownerName && r.controller == some true

/-- `rs.is_controlled_by(deployment)` specialised to ReplicaSet/Deployment. -/
def rs_is_controlled_by (rs : ReplicaSet) (deployment : Deployment) : Bool :=
  is_controlled_by (owner_references rs.metadata) deploymentKind deployment.metadata.name

/-- `pod.is_controlled_by(rs)` specialised to Pod/ReplicaSet. -/
def pod_is_controlled_by (pod : Pod) (rs : ReplicaSet) : Bool :=
  is_controlled_by (owner_references pod.metadata) replicaSetKind rs.metadata.name

/-- `BTreeMap::remove(key)` on a unique-keyed label map: drop the entry with
that key. -/
def removeLabelKey (key : String) (labels : List (String × String)) :
    List (String × String) :=
  labels.filter fun kv => kv.1 ≠ key

/-- `remove_hash` (src/ext2.rs:359-365): clone the template and, when its
metadata and label map are both present, remove the
`DEFAULT_DEPLOYMENT_UNIQUE_LABEL_KEY` entry (`labels_mut` yields nothing —
and the template is returned unchanged — when either is absent). -/
def remove_hash (template : PodTemplateSpec) : PodTemplateSpec :=
  match template.metadata with
  | none => template
  | some m =>
    match m.labels with
    | none => template
    | some ls =>
      { template with
        metadata := some { m with labels := some (removeLabelKey DEFAULT_DEPLOYMENT_UNIQUE_LABEL_KEY ls) } }

/-- `match_template_spec_no_hash` (src/ext2.rs:353-357): compare the two
optional templates for structural equality after canonicalization. -/
def match_template_spec_no_hash (rs : ReplicaSet) (deployment : Deployment) : Bool :=
  decide (rs.template.map remove_hash = deployment.template.map remove_hash)

/-- The `Ord` order on `Option<Time>` used by `sort_by_key`: `None` sorts
before every `Some`, timestamps compare chronologically. -/
def optTimeLe : Option Int → Option Int → Bool
  | none, _ => true
  | some _, none => false
  | some a, some b => decide (a ≤ b)

/-- `rs.creation_timestamp()` (`ResourceExt`). -/
def creation_timestamp (rs : ReplicaSet) : Option Int :=
  rs.metadata.creationTimestamp

/-- The sort key relation of `replicasets.sort_by_key(|rs| rs.creation_timestamp())`. -/
def tsRel (a b : ReplicaSet) : Prop :=
  optTimeLe (creation_timestamp a) (creation_timestamp b) = true

instance : DecidableRel tsRel := fun a b => by
  unfold tsRel; infer_instance

instance : IsTotal ReplicaSet tsRel := by
  constructor
  intro a b
  unfold tsRel optTimeLe
  rcases creation_timestamp a with _ | x <;> rcases creation_timestamp b with _ | y <;> simp
  omega

instance : IsTrans ReplicaSet tsRel := by
  constructor
  intro a b c
  unfold tsRel optTimeLe
  rcases creation_timestamp a with _ | x <;> rcases creation_timestamp b with _ | y <;>
    rcases creation_timestamp c with _ | z <;> simp
  omega

/-- Modelled from the spec (§2, §6 Object Accessor): the remote reads the
resolver performs, each able to fail.  `list_pods_labeled` is the
label-selector listing used on the StatefulSet path. -/
structure KubeApi where
  get_deployment_opt : String → Option String → KubeResult (Option Deployment)
  get_statefulset_opt : String → Option String → KubeResult (Option StatefulSet)
  list_replicasets : Option String → KubeResult (List ReplicaSet)
  list_pods : Option String → KubeResult (List Pod)
  list_pods_labeled : Option String → String → KubeResult (List Pod)

/-- The selection step of `get_pods_by_deployment` (src/ext2.rs:291-306):
filter the listed replicasets to those controlled by the deployment, sort
(stably) by creation timestamp, and return the first whose canonicalized
template matches the deployment's. -/
def select_new_replicaset (deployment : Deployment) (rss : List ReplicaSet) :
    Option ReplicaSet :=
  ((rss.filter fun rs => rs_is_controlled_by rs deployment).insertionSort tsRel).find?
    fun rs => match_template_spec_no_hash rs deployment

/-- `get_pods_by_deployment` (src/ext2.rs:286-317).  The `?` operator on each
remote read is rendered as an explicit match whose error arm returns the
error unchanged. -/
def get_pods_by_deployment (api : KubeApi) (deployment : Deployment) :
    KubeResult (Option (List Pod)) :=
  match api.list_replicasets deployment.metadata.ns with
  | Except.error e => Except.error e
  | Except.ok rss =>
    match select_new_replicaset deployment rss with
    | none => Except.ok none
    | some new =>
      match api.list_pods deployment.metadata.ns with
      | Except.error e => Except.error e
      | Except.ok pods =>
        Except.ok (some (pods.filter fun pod => pod_is_controlled_by pod new))

/-- `get_pods_by_deployment_name` (src/ext2.rs:271-281): fetch the deployment
by name (`?` propagates the error), answer `Ok(None)` when it is absent,
delegate otherwise. -/
def get_pods_by_deployment_name (api : KubeApi) (name : String)
    (ns : Option String) : KubeResult (Option (List Pod)) :=
  match api.get_deployment_opt name ns with
  | Except.error e => Except.error e
  | Except.ok none => Except.ok none
  | Except.ok (some deployment) => get_pods_by_deployment api deployment

/-- `get_pod_by_statefulset` (src/ext2.rs:320-337): with a current revision,
list pods by the `controller-revision-hash=<revision>` selector (`?`
propagates the error); without one, the pod list is `vec![]`; either way the
result is `Ok(Some(pods))`. -/
def get_pod_by_statefulset (api : KubeApi) (statefulset : StatefulSet) :
    KubeResult (Option (List Pod)) :=
  match statefulset.currentRevision with
  | some revision =>
    match api.list_pods_labeled statefulset.metadata.ns
        (CONTROLLER_REVISION_HASH_LABEL_KEY ++ "=" ++ revision) with
    | Except.error e => Except.error e
    | Except.ok pods => Except.ok (some pods)
  | none => Except.ok (some [])

/-- `get_pods_by_statefulset_name` (src/ext2.rs:339-348). -/
def get_pods_by_statefulset_name (api : KubeApi) (name : String)
    (ns : Option String) : KubeResult (Option (List Pod)) :=
  match api.get_statefulset_opt name ns with
  | Except.error e => Except.error e
  | Except.ok none => Except.ok none
  | Except.ok (some statefulset) => get_pod_by_statefulset api statefulset

/-- The typed get-by-name accessor `get_owner_k` fetches through for a kind
`K`: its kind string and its `get_opt` remote read. -/
structure KindApi (κ : Type) where
  kind : String
  get_opt : String → Option String → KubeResult (Option κ)

/-- `get_owner_k` (src/ext2.rs:137-159): find the first owner reference whose
kind equals `K`'s kind and fetch the owner by that reference's name in `o`'s
namespace; with no such reference, answer `Ok(None)` directly. -/
def get_owner_k {κ : Type} (k : KindApi κ) (o : ObjectMeta) :
    KubeResult (Option κ) :=
  match ((owner_references o).find? fun owner => owner.kind == k.kind).map
      (fun owner => owner.name) with
  | some name => k.get_opt name o.ns
  | none => Except.ok none

/-- `not_found_ok` (src/helper.rs:24-29): an API error whose status is
"not found" becomes `Ok(Right(status))`; every other error is returned
unchanged. -/
def not_found_ok (κ : Type) (err : Error) : KubeResult (κ ⊕ Status) :=
  match err with
  | Error.api status =>
    if status.isNotFound then Except.ok (Sum.inr status) else Except.error (Error.api status)
  | Error.other payload => Except.error (Error.other payload)

/-! Helper lemmas -/

/-- The sort key relation is reflexive. -/
lemma tsRel_refl (a : ReplicaSet) : tsRel a a := by
  unfold tsRel optTimeLe
  rcases creation_timestamp a with _ | x <;> simp

/-- In a `Pairwise R` list, the first element satisfying `p` is `R`-below
every element satisfying `p` (given reflexivity of `R`). -/
lemma find?_pairwise_min {α : Type} {R : α → α → Prop} (hrefl : ∀ a, R a a)
    {p : α → Bool} :
    ∀ {l : List α}, l.Pairwise R → ∀ {x : α}, l.find? p = some x →
      ∀ y ∈ l, p y = true → R x y := by
  intro l
  induction l with
  | nil => intro _ x hx; simp at hx
  | cons a t ih =>
    intro hpw x hfind y hy hpy
    rw [List.pairwise_cons] at hpw
    cases hpa : p a with
    | true =>
      rw [List.find?_cons_of_pos _ hpa] at hfind
      have hax : a = x := Option.some_inj.mp hfind
      rcases List.mem_cons.mp hy with hya | hyt
      · rw [hya, ← hax]; exact hrefl a
      · rw [← hax]; exact hpw.1 y hyt
    | false =>
      rw [List.find?_cons_of_neg _ (by simp [hpa])] at hfind
      rcases List.mem_cons.mp hy with hya | hyt
      · rw [hya, hpa] at hpy; cases hpy
      · exact ih hpw.2 hfind y hyt hpy

/-- `find?` over a split list whose prefix contains no hit returns the split
point when it is a hit. -/
lemma find?_eq_some_of_split {α : Type} {p : α → Bool} :
    ∀ (pre : List α) (a : α) (post : List α), (∀ x ∈ pre, p x = false) →
      p a = true → (pre ++ a :: post).find? p = some a := by
  intro pre
  induction pre with
  | nil => intro a post _ hpa; simpa [List.find?_cons_of_pos] using
      List.find?_cons_of_pos post hpa
  | cons b t ih =>
    intro a post hall hpa
    have hb : p b = false := hall b (List.mem_cons_self b t)
    rw [List.cons_append, List.find?_cons_of_neg _ (by simp [hb])]
    exact ih a post (fun x hx => hall x (List.mem_cons_of_mem b hx)) hpa

/-- Removing a label key twice is the same as removing it once. -/
lemma removeLabelKey_idem (key : String) (ls : List (String × String)) :
    removeLabelKey key (removeLabelKey key ls) = removeLabelKey key ls := by
  unfold removeLabelKey
  rw [List.filter_filter]
  simp

/-- Spec §8, the relation "differing only in the generated identity label"
restricted to the optional label map: both maps absent, or both present and
equal once the `pod-template-hash` entry is dropped from each. -/
def labels_differ_only_in_hash :
    Option (List (String × String)) → Option (List (String × String)) → Prop
  | none, none => True
  | some l1, some l2 =>
    removeLabelKey DEFAULT_DEPLOYMENT_UNIQUE_LABEL_KEY l1 =
      removeLabelKey DEFAULT_DEPLOYMENT_UNIQUE_LABEL_KEY l2
  | _, _ => False

/-- The optional template metadata of two templates differing only in the
generated identity label: every field agrees except possibly the
`pod-template-hash` label entry. -/
def meta_differ_only_in_hash : Option ObjectMeta → Option ObjectMeta → Prop
  | none, none => True
  | some m1, some m2 =>
    m1.name = m2.name ∧ m1.ns = m2.ns ∧
      m1.creationTimestamp = m2.creationTimestamp ∧
      m1.ownerReferences = m2.ownerReferences ∧ m1.rest = m2.rest ∧
      labels_differ_only_in_hash m1.labels m2.labels
  | _, _ => False

/-- Two pod templates differ only in the generated identity label: equal
specs, and metadata equal in every component except the `pod-template-hash`
label entry (carried with different values, or carried by one and not the
other). -/
def differ_only_in_hash_label (t1 t2 : PodTemplateSpec) : Prop :=
  t1.spec = t2.spec ∧ meta_differ_only_in_hash t1.metadata t2.metadata

/-- When no controlled replicaset has a matching canonicalized template, the
selection step yields nothing. -/
lemma select_new_replicaset_eq_none (deployment : Deployment)
    (rss : List ReplicaSet)
    (h : ∀ rs ∈ rss, rs_is_controlled_by rs deployment = true →
      match_template_spec_no_hash rs deployment = false) :
    select_new_replicaset deployment rss = none := by
  unfold select_new_replicaset
  rw [List.find?_eq_none]
  intro rs hmem
  rw [List.mem_insertionSort, List.mem_filter] at hmem
  simp [h rs hmem.1 hmem.2]

/-- The selected replicaset is a controlled, template-matching element of the
listing with minimal creation timestamp among all such elements. -/
lemma select_new_replicaset_min (deployment : Deployment)
    (rss : List ReplicaSet) (new : ReplicaSet)
    (h : select_new_replicaset deployment rss = some new) :
    new ∈ rss ∧ rs_is_controlled_by new deployment = true ∧
      match_template_spec_no_hash new deployment = true ∧
      ∀ rs ∈ rss, rs_is_controlled_by rs deployment = true →
        match_template_spec_no_hash rs deployment = true →
        optTimeLe (creation_timestamp new) (creation_timestamp rs) = true := by
  unfold select_new_replicaset at h
  have hmem := List.mem_of_find?_eq_some h
  rw [List.mem_insertionSort, List.mem_filter] at hmem
  have hmatch := List.find?_some h
  have hpw : ((rss.filter fun rs => rs_is_controlled_by rs deployment).insertionSort
      tsRel).Pairwise tsRel :=
    List.sorted_insertionSort tsRel _
  refine ⟨hmem.1, hmem.2, hmatch, ?_⟩
  intro rs hrs hc hm
  have hin : rs ∈ (rss.filter fun rs =>
      rs_is_controlled_by rs deployment).insertionSort tsRel := by
    rw [List.mem_insertionSort, List.mem_filter]
    exact ⟨hrs, hc⟩
  exact find?_pairwise_min tsRel_refl hpw h rs hin hm

/-! Concrete sample objects, used by the witness theorems. -/

/-- Sample metadata for the parent objects. -/
def sampleMeta : ObjectMeta :=
  { name := some "web", ns := some "ns1", labels := none,
    creationTimestamp := none, ownerReferences := none, rest := "" }

/-- Sample pod template with the given label map. -/
def sampleTemplate (ls : Option (List (String × String))) : PodTemplateSpec :=
  { metadata := some { sampleMeta with labels := ls }, spec := some "podspec" }

/-- Sample deployment whose canonical template carries `app=web`. -/
def sampleDeployment : Deployment :=
  { metadata := sampleMeta
  , template := some (sampleTemplate (some [("app", "web")])) }

/-- Metadata of a replicaset controlled by `sampleDeployment`. -/
def sampleRsMeta (nm : String) (ts : Int) : ObjectMeta :=
  { name := some nm, ns := some "ns1", labels := none,
    creationTimestamp := some ts
  , ownerReferences :=
      some [{ kind := "Deployment", name := "web", controller := some true }]
  , rest := "" }

/-- Matching replicaset created at `t=1`. -/
def sampleRs1 : ReplicaSet :=
  { metadata := sampleRsMeta "rs1" 1
  , template := some (sampleTemplate (some [("app", "web"), ("pod-template-hash", "x1")])) }

/-- Matching replicaset created at `t=2`. -/
def sampleRs2 : ReplicaSet :=
  { metadata := sampleRsMeta "rs2" 2
  , template := some (sampleTemplate (some [("app", "web"), ("pod-template-hash", "x2")])) }

/-- Non-matching replicaset created at `t=0`. -/
def sampleRs3 : ReplicaSet :=
  { metadata := sampleRsMeta "rs3" 0
  , template := some (sampleTemplate (some [("app", "other")])) }

/-- A pod controlled by `sampleRs1`. -/
def samplePod : Pod :=
  { metadata :=
    { name := some "pod1", ns := some "ns1", labels := none,
      creationTimestamp := none
    , ownerReferences :=
        some [{ kind := "ReplicaSet", name := "rs1", controller := some true }]
    , rest := "" } }

/-- Sample api: both parents absent, fixed replicaset and pod listings. -/
def sampleApi : KubeApi :=
  { get_deployment_opt := fun _ _ => Except.ok none
  , get_statefulset_opt := fun _ _ => Except.ok none
  , list_replicasets := fun _ => Except.ok [sampleRs2, sampleRs1, sampleRs3]
  , list_pods := fun _ => Except.ok [samplePod]
  , list_pods_labeled := fun _ _ => Except.ok [samplePod] }

/-- Sample statefulset with no published revision. -/
def sampleStsNoRev : StatefulSet := { metadata := sampleMeta, currentRevision := none }

/-- Sample statefulset at revision `db-5f8c`. -/
def sampleStsRev : StatefulSet :=
  { metadata := sampleMeta, currentRevision := some "db-5f8c" }

/-! Claim theorems -/

/-- C6: canonicalization is idempotent: for every pod template `T`,
`remove_hash (remove_hash T) = remove_hash T`. -/
theorem c6_remove_hash_idempotent (template : PodTemplateSpec) :
    remove_hash (remove_hash template) = remove_hash template := by
  rcases template with ⟨meta, spec⟩
  cases meta with
  | none => rfl
  | some m =>
    rcases m with ⟨n, nsp, lab, ct, orefs, r⟩
    cases lab with
    | none => rfl
    | some ls => simp [remove_hash, removeLabelKey_idem]

/-- C7: two pod templates that differ only in the generated identity label
(`pod-template-hash`, carried with different values or carried by only one
of them) have equal canonicalizations. -/
theorem c7_remove_hash_of_differ_only_in_hash (t1 t2 : PodTemplateSpec)
    (h : differ_only_in_hash_label t1 t2) : remove_hash t1 = remove_hash t2 := by
  rcases t1 with ⟨m1, s1⟩
  rcases t2 with ⟨m2, s2⟩
  obtain ⟨hspec, hmeta⟩ := h
  subst hspec
  cases m1 with
  | none =>
    cases m2 with
    | none => rfl
    | some mm2 => exact absurd hmeta (by simp [meta_differ_only_in_hash])
  | some mm1 =>
    cases m2 with
    | none => exact absurd hmeta (by simp [meta_differ_only_in_hash])
    | some mm2 =>
      rcases mm1 with ⟨n1, ns1, l1, c1, o1, r1⟩
      rcases mm2 with ⟨n2, ns2, l2, c2, o2, r2⟩
      simp only [meta_differ_only_in_hash] at hmeta
      obtain ⟨hn, hns, hct, hor, hr, hl⟩ := hmeta
      subst hn; subst hns; subst hct; subst hor; subst hr
      cases l1 with
      | none =>
        cases l2 with
        | none => rfl
        | some ll2 => exact absurd hl (by simp [labels_differ_only_in_hash])
      | some ll1 =>
        cases l2 with
        | none => exact absurd hl (by simp [labels_differ_only_in_hash])
        | some ll2 =>
          have hkey : removeLabelKey DEFAULT_DEPLOYMENT_UNIQUE_LABEL_KEY ll1 =
              removeLabelKey DEFAULT_DEPLOYMENT_UNIQUE_LABEL_KEY ll2 := hl
          simp [remove_hash, hkey]

/-- Witness for C7: concrete templates, one carrying `pod-template-hash` and
one not, canonicalize equally. -/
theorem c7_witness :
    remove_hash (sampleTemplate (some [("app", "web"), ("pod-template-hash", "x1")])) =
      remove_hash (sampleTemplate (some [("app", "web")])) :=
  c7_remove_hash_of_differ_only_in_hash _ _ (by
    refine ⟨rfl, ?_⟩
    simp [sampleTemplate, sampleMeta, meta_differ_only_in_hash,
      labels_differ_only_in_hash]
    decide)

/-- C8: `not_found_ok` succeeds carrying the status exactly when the error is
an API error whose status is "not found", and returns every other error
unchanged. -/
theorem c8_not_found_ok_characterization (κ : Type) (e : Error) :
    (∃ s, e = Error.api s ∧ s.isNotFound = true ∧
      not_found_ok κ e = Except.ok (Sum.inr s)) ∨
    ((∀ s, e = Error.api s → s.isNotFound = false) ∧
      not_found_ok κ e = Except.error e) := by
  cases e with
  | api s =>
    cases hnf : s.isNotFound with
    | true => exact Or.inl ⟨s, rfl, hnf, by simp [not_found_ok, hnf]⟩
    | false =>
      refine Or.inr ⟨?_, by simp [not_found_ok, hnf]⟩
      intro s' hs'
      cases hs'
      exact hnf
  | other p =>
    refine Or.inr ⟨?_, by simp [not_found_ok]⟩
    intro s' hs'
    cases hs'

/-- Witness for C8: a not-found API error becomes a success carrying its
status. -/
theorem c8_witness :
    not_found_ok Nat (Error.api { isNotFound := true, rest := "" }) =
      Except.ok (Sum.inr { isNotFound := true, rest := "" }) := by
  rcases c8_not_found_ok_characterization Nat
      (Error.api { isNotFound := true, rest := "" }) with
    ⟨s, hs, _, hok⟩ | ⟨hall, _⟩
  · cases hs
    exact hok
  · exact absurd (hall _ rfl) (by decide)

/-- C9: a replicaset and a deployment that both lack a pod template have
matching canonicalized templates, so such a replicaset can be selected as
the current generation of such a deployment. -/
theorem c9_match_template_of_no_templates (rs : ReplicaSet)
    (deployment : Deployment) (h1 : rs.template = none)
    (h2 : deployment.template = none) :
    match_template_spec_no_hash rs deployment = true ∧
      (rs_is_controlled_by rs deployment = true →
        select_new_replicaset deployment [rs] = some rs) := by
  have hm : match_template_spec_no_hash rs deployment = true := by
    simp [match_template_spec_no_hash, h1, h2]
  refine ⟨hm, fun hc => ?_⟩
  unfold select_new_replicaset
  rw [show List.filter (fun rs => rs_is_controlled_by rs deployment) [rs] = [rs]
    by simp [hc]]
  show List.find? (fun rs => match_template_spec_no_hash rs deployment) [rs] = some rs
  exact List.find?_cons_of_pos _ hm

/-- Witness for C9: a template-less replicaset controlled by a template-less
deployment matches and is selected. -/
theorem c9_witness :
    match_template_spec_no_hash
        { metadata := sampleRsMeta "rs0" 0, template := none }
        { metadata := sampleMeta, template := none } = true ∧
      (rs_is_controlled_by
          { metadata := sampleRsMeta "rs0" 0, template := none }
          { metadata := sampleMeta, template := none } = true →
        select_new_replicaset { metadata := sampleMeta, template := none }
          [{ metadata := sampleRsMeta "rs0" 0, template := none }] =
          some { metadata := sampleRsMeta "rs0" 0, template := none }) :=
  c9_match_template_of_no_templates _ _ rfl rfl

/-- C4: a statefulset whose current-revision field is absent resolves to an
empty pod set — not the "none" value and not an error. -/
theorem c4_statefulset_no_revision_empty (api : KubeApi)
    (statefulset : StatefulSet) (h : statefulset.currentRevision = none) :
    get_pod_by_statefulset api statefulset = Except.ok (some []) ∧
      get_pod_by_statefulset api statefulset ≠ Except.ok none ∧
      ∀ e, get_pod_by_statefulset api statefulset ≠ Except.error e := by
  have heq : get_pod_by_statefulset api statefulset = Except.ok (some []) := by
    unfold get_pod_by_statefulset
    rw [h]
  exact ⟨heq, by rw [heq]; simp, fun e => by rw [heq]; simp⟩

/-- Witness for C4 at a concrete revision-less statefulset. -/
theorem c4_witness :
    get_pod_by_statefulset sampleApi sampleStsNoRev = Except.ok (some []) :=
  (c4_statefulset_no_revision_empty sampleApi sampleStsNoRev rfl).1

/-- C5: a statefulset with current revision `r` lists pods in its namespace
with exactly the selector `controller-revision-hash=r` and returns the
listed pods unmodified. -/
theorem c5_statefulset_revision_selector (api : KubeApi)
    (statefulset : StatefulSet) (r : String) (pods : List Pod)
    (hrev : statefulset.currentRevision = some r)
    (hlist : api.list_pods_labeled statefulset.metadata.ns
      (CONTROLLER_REVISION_HASH_LABEL_KEY ++ "=" ++ r) = Except.ok pods) :
    get_pod_by_statefulset api statefulset = Except.ok (some pods) := by
  simp [get_pod_by_statefulset, hrev, hlist]

/-- Witness for C5 at revision `db-5f8c`. -/
theorem c5_witness :
    get_pod_by_statefulset sampleApi sampleStsRev = Except.ok (some [samplePod]) :=
  c5_statefulset_revision_selector sampleApi sampleStsRev "db-5f8c" [samplePod]
    rfl rfl

/-- C1: `get_pods_by_deployment` selects as the current generation a
controlled, template-matching replicaset from the listing that is
earliest-created among all controlled template-matching ones (so template
ties resolve to the earliest creation timestamp), and returns exactly the
pods controlled by it. -/
theorem c1_selects_earliest_current_generation (api : KubeApi)
    (deployment : Deployment) (rss : List ReplicaSet) (pods : List Pod)
    (new : ReplicaSet)
    (hrs : api.list_replicasets deployment.metadata.ns = Except.ok rss)
    (hpods : api.list_pods deployment.metadata.ns = Except.ok pods)
    (hsel : select_new_replicaset deployment rss = some new) :
    new ∈ rss ∧ rs_is_controlled_by new deployment = true ∧
      match_template_spec_no_hash new deployment = true ∧
      (∀ rs ∈ rss, rs_is_controlled_by rs deployment = true →
        match_template_spec_no_hash rs deployment = true →
        optTimeLe (creation_timestamp new) (creation_timestamp rs) = true) ∧
      get_pods_by_deployment api deployment =
        Except.ok (some (pods.filter fun pod => pod_is_controlled_by pod new)) := by
  obtain ⟨h1, h2, h3, h4⟩ := select_new_replicaset_min deployment rss new hsel
  refine ⟨h1, h2, h3, h4, ?_⟩
  simp [get_pods_by_deployment, hrs, hsel, hpods]

/-- Witness for C1: among one non-matching and two matching replicasets
listed out of creation order, the earliest-created match (`sampleRs1`) is
selected and its pod returned. -/
theorem c1_witness :
    get_pods_by_deployment sampleApi sampleDeployment =
      Except.ok (some [samplePod]) :=
  ((c1_selects_earliest_current_generation sampleApi sampleDeployment
    [sampleRs2, sampleRs1, sampleRs3] [samplePod] sampleRs1
    rfl rfl (by decide)).2.2.2.2).trans rfl

/-- C2: for both by-name resolvers, an absent parent yields `Ok(None)` (not
an error), and an error from any remote read — parent get, replicaset
listing, pod listing, labeled pod listing — is returned to the caller
unchanged. -/
theorem c2_resolver_error_policy (api : KubeApi) (name : String)
    (ns : Option String) :
    (api.get_deployment_opt name ns = Except.ok none →
      get_pods_by_deployment_name api name ns = Except.ok none) ∧
    (∀ e, api.get_deployment_opt name ns = Except.error e →
      get_pods_by_deployment_name api name ns = Except.error e) ∧
    (∀ d e, api.get_deployment_opt name ns = Except.ok (some d) →
      api.list_replicasets d.metadata.ns = Except.error e →
      get_pods_by_deployment_name api name ns = Except.error e) ∧
    (∀ d rss new e, api.get_deployment_opt name ns = Except.ok (some d) →
      api.list_replicasets d.metadata.ns = Except.ok rss →
      select_new_replicaset d rss = some new →
      api.list_pods d.metadata.ns = Except.error e →
      get_pods_by_deployment_name api name ns = Except.error e) ∧
    (api.get_statefulset_opt name ns = Except.ok none →
      get_pods_by_statefulset_name api name ns = Except.ok none) ∧
    (∀ e, api.get_statefulset_opt name ns = Except.error e →
      get_pods_by_statefulset_name api name ns = Except.error e) ∧
    (∀ s r e, api.get_statefulset_opt name ns = Except.ok (some s) →
      s.currentRevision = some r →
      api.list_pods_labeled s.metadata.ns
        (CONTROLLER_REVISION_HASH_LABEL_KEY ++ "=" ++ r) = Except.error e →
      get_pods_by_statefulset_name api name ns = Except.error e) := by
  refine ⟨?_, ?_, ?_, ?_, ?_, ?_, ?_⟩
  · intro h
    simp [get_pods_by_deployment_name, h]
  · intro e h
    simp [get_pods_by_deployment_name, h]
  · intro d e h1 h2
    simp [get_pods_by_deployment_name, h1, get_pods_by_deployment, h2]
  · intro d rss new e h1 h2 h3 h4
    simp [get_pods_by_deployment_name, h1, get_pods_by_deployment, h2, h3, h4]
  · intro h
    simp [get_pods_by_statefulset_name, h]
  · intro e h
    simp [get_pods_by_statefulset_name, h]
  · intro s r e h1 h2 h3
    simp [get_pods_by_statefulset_name, h1, get_pod_by_statefulset, h2, h3]

/-- Witness for C2: absent parents resolve to `Ok(None)` for both by-name
operations. -/
theorem c2_witness :
    get_pods_by_deployment_name sampleApi "missing" (some "ns1") =
        Except.ok none ∧
      get_pods_by_statefulset_name sampleApi "missing" (some "ns1") =
        Except.ok none :=
  ⟨(c2_resolver_error_policy sampleApi "missing" (some "ns1")).1 rfl,
    (c2_resolver_error_policy sampleApi "missing" (some "ns1")).2.2.2.2.1 rfl⟩

/-- C3: when no controlled replicaset in the listing has a matching
canonicalized template — in particular when there are no replicasets at
all — `get_pods_by_deployment` returns `Ok(None)`, which is distinct from
an empty pod set and is not an error. -/
theorem c3_no_current_generation_none (api : KubeApi)
    (deployment : Deployment) (rss : List ReplicaSet)
    (hrs : api.list_replicasets deployment.metadata.ns = Except.ok rss)
    (hno : ∀ rs ∈ rss, rs_is_controlled_by rs deployment = true →
      match_template_spec_no_hash rs deployment = false) :
    get_pods_by_deployment api deployment = Except.ok none ∧
      get_pods_by_deployment api deployment ≠ Except.ok (some []) ∧
      ∀ e, get_pods_by_deployment api deployment ≠ Except.error e := by
  have heq : get_pods_by_deployment api deployment = Except.ok none := by
    simp [get_pods_by_deployment, hrs,
      select_new_replicaset_eq_none deployment rss hno]
  exact ⟨heq, by rw [heq]; simp, fun e => by rw [heq]; simp⟩

/-- Sample api listing zero replicasets (spec Scenario B). -/
def sampleApiNoRs : KubeApi :=
  { sampleApi with list_replicasets := fun _ => Except.ok [] }

/-- Witness for C3: a deployment with zero replicasets resolves to
`Ok(None)`. -/
theorem c3_witness :
    get_pods_by_deployment sampleApiNoRs sampleDeployment = Except.ok none :=
  (c3_no_current_generation_none sampleApiNoRs sampleDeployment [] rfl
    (by intro rs h; cases h)).1

/-- C10: `get_owner_k` selects the first owner reference whose kind equals
the requested kind — regardless of that entry's name or controller flag —
and fetches the owner by that entry's name in the object's namespace; when
no reference of that kind exists it answers `Ok(None)` for every possible
remote-read behavior (so no remote read can influence the result). -/
theorem c10_get_owner_k_spec (κ : Type) (k : KindApi κ) (o : ObjectMeta) :
    ((∀ r ∈ owner_references o, r.kind ≠ k.kind) →
      get_owner_k k o = Except.ok none) ∧
    (∀ pre r post, owner_references o = pre ++ r :: post →
      (∀ x ∈ pre, x.kind ≠ k.kind) → r.kind = k.kind →
      get_owner_k k o = k.get_opt r.name o.ns) := by
  constructor
  · intro h
    have hfind : (owner_references o).find?
        (fun owner => owner.kind == k.kind) = none := by
      rw [List.find?_eq_none]
      intro x hx
      simp [h x hx]
    simp [get_owner_k, hfind]
  · intro pre r post hsplit hpre hr
    have hfind : (owner_references o).find?
        (fun owner => owner.kind == k.kind) = some r := by
      rw [hsplit]
      exact find?_eq_some_of_split pre r post
        (fun x hx => by simp [hpre x hx]) (by simp [hr])
    simp [get_owner_k, hfind]

/-- Metadata of an object owned by a replicaset (non-controlling reference
listed first) and a deployment (controller flag unset). -/
def sampleOwnedMeta : ObjectMeta :=
  { name := some "pod9", ns := some "ns1", labels := none,
    creationTimestamp := none
  , ownerReferences :=
      some [{ kind := "ReplicaSet", name := "other", controller := some false }
        , { kind := "Deployment", name := "web", controller := none }]
  , rest := "" }

/-- Typed accessor for the Deployment kind, serving only `web` in `ns1`. -/
def sampleKindApi : KindApi Deployment :=
  { kind := "Deployment"
  , get_opt := fun nm ns =>
      if nm == "web" && ns == some "ns1" then Except.ok (some sampleDeployment)
      else Except.ok none }

/-- Witness for C10: the Deployment-kind owner reference is found (despite a
preceding reference of another kind and its own unset controller flag) and
the owner is fetched by name. -/
theorem c10_witness :
    get_owner_k sampleKindApi sampleOwnedMeta =
      Except.ok (some sampleDeployment) :=
  ((c10_get_owner_k_spec Deployment sampleKindApi sampleOwnedMeta).2
    [{ kind := "ReplicaSet", name := "other", controller := some false }]
    { kind := "Deployment", name := "web", controller := none } []
    rfl (by decide) rfl).trans rfl

end KubeClientExt
